import Mathlib

/-!
# Verification of the authlib Starlette `RemoteApp` client

A shallow embedding of `src/authlib/integrations/starlette_client/remote_app.py`
(the OAuth 1.0/2.0 and OpenID-Connect client engine).  Python dictionaries are
modelled as association lists (for open-ended parameter maps) or as structures
of `Option` fields (for the server-metadata map, whose relevant keys are fixed).
Asynchronous network effects are made explicit: every embedded operation
returns, alongside its result and the updated client state, the list of
observable `Event`s (network calls and hook invocations) it performed, in
order.  External collaborators (the HTTP transport, the state generator, the
clock) are collected in a `World` record of oracle functions, following §6 of
the design document.

Helpers of this repository that live outside the Starlette module (the shared
base client, `authlib.jose`, `authlib.oidc.core`) are not part of the extracted
source; each such definition is marked `Modelled from the spec:` and follows
the design document's description of that collaborator.
-/

set_option autoImplicit false

namespace AuthlibStarlette

/-! ## Association-list dictionaries

Parameter maps (`kwargs`, token dicts, query strings) are association lists.
`dlookup` is keyed lookup; `dictUpdate base upd` models Python's
`base.update(upd)`: the updated map holds every key of both, and on a key
present in both the value from `upd` wins. -/

def dlookup {α : Type} (l : List (String × α)) (k : String) : Option α :=
  match l with
  | [] => none
  | p :: rest => if p.1 = k then some p.2 else dlookup rest k

/-- Python `base.update(upd)`: keys of `upd` override, other keys of `base`
survive.  Each key occurs at most once in the result when it did in the
inputs; entry order is immaterial since all observations go through
`dlookup`. -/
def dictUpdate {α : Type} (base upd : List (String × α)) : List (String × α) :=
  base.filter (fun p => (dlookup upd p.1).isNone) ++ upd

theorem dlookup_append {α : Type} (l1 l2 : List (String × α)) (k : String) :
    dlookup (l1 ++ l2) k =
      match dlookup l1 k with
      | some v => some v
      | none => dlookup l2 k := by
  induction l1 with
  | nil => simp [dlookup]
  | cons p rest ih =>
      by_cases h : p.1 = k <;> simp [dlookup, h, ih]

theorem dlookup_filter_shadowed {α : Type} (upd base : List (String × α))
    (k : String) (v0 : α) (hu : dlookup upd k = some v0) :
    dlookup (base.filter (fun p => (dlookup upd p.1).isNone)) k = none := by
  induction base with
  | nil => simp [dlookup]
  | cons p rest ih =>
      by_cases hk : p.1 = k
      · have hc : dlookup upd p.1 = some v0 := by rw [hk]; exact hu
        simp [List.filter_cons, hc, ih]
      · cases hn : dlookup upd p.1 <;>
          simp [List.filter_cons, hn, dlookup, hk, ih]

theorem dlookup_filter_kept {α : Type} (upd base : List (String × α))
    (k : String) (hu : dlookup upd k = none) :
    dlookup (base.filter (fun p => (dlookup upd p.1).isNone)) k
      = dlookup base k := by
  induction base with
  | nil => simp
  | cons p rest ih =>
      by_cases hk : p.1 = k
      · have hc : dlookup upd p.1 = none := by rw [hk]; exact hu
        rw [List.filter_cons]
        simp only [hc, Option.isNone_none]
        simp [dlookup, hk]
      · cases hn : dlookup upd p.1 <;>
          simp [List.filter_cons, hn, dlookup, hk, ih]

/-- Lookup in a Python-style dict update: the updating dict's binding wins,
otherwise the base binding remains. -/
theorem dlookup_dictUpdate {α : Type} (base upd : List (String × α)) (k : String) :
    dlookup (dictUpdate base upd) k =
      match dlookup upd k with
      | some v => some v
      | none => dlookup base k := by
  unfold dictUpdate
  rw [dlookup_append]
  cases hu : dlookup upd k with
  | some v => rw [dlookup_filter_shadowed upd base k v hu]
  | none =>
      rw [dlookup_filter_kept upd base k hu]
      cases dlookup base k <;> rfl

/-! ## Data model -/

/-- One JSON Web Key: a key id and the public key material. -/
structure JWK where
  kid : String
  material : String
  deriving DecidableEq, Repr

/-- A JSON Web Key Set (`metadata['jwks']`), mapping key ids to key
material. -/
def JWKSet : Type := List JWK

instance : DecidableEq JWKSet := inferInstanceAs (DecidableEq (List JWK))

/-- The server-metadata map (`self.server_metadata`), restricted to the keys
the client reads.  A key absent from the Python dict is `none`. -/
structure Metadata where
  issuer : Option String := none
  authorization_endpoint : Option String := none
  token_endpoint : Option String := none
  userinfo_endpoint : Option String := none
  jwks : Option JWKSet := none
  jwks_uri : Option String := none
  id_token_signing_alg_values_supported : Option (List String) := none
  deriving DecidableEq

/-- Python `self.server_metadata.update(metadata)` restricted to the tracked
keys: a key present in the fetched document overrides the cached one, keys
absent from the fetched document survive. -/
def metaUpdate (old new : Metadata) : Metadata where
  issuer := new.issuer <|> old.issuer
  authorization_endpoint := new.authorization_endpoint <|> old.authorization_endpoint
  token_endpoint := new.token_endpoint <|> old.token_endpoint
  userinfo_endpoint := new.userinfo_endpoint <|> old.userinfo_endpoint
  jwks := new.jwks <|> old.jwks
  jwks_uri := new.jwks_uri <|> old.jwks_uri
  id_token_signing_alg_values_supported :=
    new.id_token_signing_alg_values_supported <|> old.id_token_signing_alg_values_supported

/-- The decoded payload claims of an ID token. -/
structure Claims where
  iss : Option String := none
  nonce : Option String := none
  exp : Option Nat := none
  at_hash : Option String := none
  deriving DecidableEq, Repr

/-- A compact JWS as the client sees it: protected-header fields (`alg`,
`kid`), the payload claims, and the key material its signature verifies
against (`signedWith`): the signature is valid for a key exactly when the
key's material equals `signedWith`. -/
structure IDToken where
  alg : String
  kid : Option String := none
  signedWith : String
  claims : Claims
  deriving DecidableEq, Repr

/-- A token response mapping, restricted to the entries the client inspects
(other entries are immaterial to every operation modelled here). -/
structure Token where
  access_token : Option String := none
  id_token : Option IDToken := none
  deriving DecidableEq, Repr

/-- The per-flow session data persisted across the redirect round trip
(state / nonce / redirect uri / OAuth1 request token), owned by the caller's
session store (§6). -/
structure SessionData where
  state : Option String := none
  nonce : Option String := none
  redirect_uri : Option String := none
  request_token : Option (List (String × Option String)) := none

/-- The inbound callback request: its query parameters, and the raw scope the
Starlette implementation returns for the OAuth1 path. -/
structure CallbackRequest where
  query_params : List (String × String) := []
  scope : List (String × Option String) := []

/-- An opaque inbound request context handed to the token-resolution hook. -/
structure ReqCtx where
  ident : Nat := 0
  deriving DecidableEq

/-- An HTTP response, as far as the embedding observes it. -/
structure Response where
  status : Nat := 200
  deriving DecidableEq, Repr

/-- The error taxonomy (§7).  `invalidKey` is the `ValueError` raised by
`jwk.loads` when the key id is not found in the key set. -/
inductive Err where
  | missingAuthorizeUrl
  | missingRequestToken
  | missingToken
  | missingJwksUri
  | invalidIDToken
  | invalidKey
  | stateMismatch
  deriving DecidableEq, Repr

/-- The observable effects of one operation, in order.  `discoveryFetch`,
`jwksFetch` and `requestTokenFetch` are the unauthenticated GETs issued via
`self.request(..., withhold_token=True)` or the OAuth1 client;
`oauth1Exchange` / `oauth2Exchange` are the token-endpoint exchanges with
their parameters; `apiRequest` is the authenticated-gateway call;
`hookInvoked` records an invocation of the token-resolution hook
(`self._fetch_token`). -/
inductive Event where
  | discoveryFetch (url : String)
  | jwksFetch (url : String)
  | requestTokenFetch (url : String)
  | oauth1Exchange (endpoint : Option String)
      (credential : List (String × Option String))
      (kwargs : List (String × Option String))
  | oauth2Exchange (endpoint : Option String)
      (kwargs : List (String × Option String))
  | apiRequest (method : String) (url : String) (token : Option Token)
  | hookInvoked
  deriving DecidableEq

/-- Whether an event is a network call (every event except a pure hook
invocation reaches the network). -/
def Event.isNetworkCall : Event → Bool
  | .hookInvoked => false
  | _ => true

def isJwksFetch : Event → Bool
  | .jwksFetch _ => true
  | _ => false

/-- The mutable client state of one `RemoteApp` (`BaseApp` attributes read by
the Starlette implementation).  `fetch_token` is the optional
token-resolution hook `self._fetch_token`. -/
structure RemoteApp where
  client_id : Option String := none
  request_token_url : Option String := none
  request_token_params : List (String × String) := []
  access_token_url : Option String := none
  access_token_params : List (String × Option String) := []
  authorize_url : Option String := none
  authorize_params : List (String × String) := []
  api_base_url : Option String := none
  server_metadata_url : Option String := none
  server_metadata : Metadata := {}
  fetch_token : Option (ReqCtx → Option Token) := none

/-- The external collaborators (§6): HTTP transport oracles for the discovery
document, JWK sets, OAuth1 request tokens and token exchanges, the
authenticated transport, URL joining, the state generator and the clock.
Pure oracle functions: the same call always returns the same answer, which
suffices because every claim is about a single logical flow. -/
structure World where
  discovery : String → Metadata
  jwks_doc : String → JWKSet
  request_token_resp : String → List (String × String) → List (String × Option String)
  exchange1 : Option String → List (String × Option String) →
      List (String × Option String) → Token
  exchange2 : Option String → List (String × Option String) → Token
  http : String → String → Option Token → Response
  urljoin : String → String → String
  atHash : String → String
  genState : String
  now : Nat

/-! ## Metadata Resolver (`_load_server_metadata`, lines 22-27) -/

/-- `_load_server_metadata`: if a discovery URL is configured, fetch it, clear
the URL (only load once), merge the document into the cache; return the
cache. -/
def load_server_metadata (w : World) (app : RemoteApp) :
    Metadata × RemoteApp × List Event :=
  match app.server_metadata_url with
  | some url =>
      let metadata := w.discovery url
      let app1 : RemoteApp :=
        { app with
            server_metadata_url := none
            server_metadata := metaUpdate app.server_metadata metadata }
      (app1.server_metadata, app1, [Event.discoveryFetch url])
  | none => (app.server_metadata, app, [])

/-- Once the discovery URL is cleared, metadata resolution is a pure cache
read: no event, no state change. -/
theorem load_server_metadata_cached (w : World) (app : RemoteApp)
    (h : app.server_metadata_url = none) :
    load_server_metadata w app = (app.server_metadata, app, []) := by
  simp [load_server_metadata, h]

/-- **C3.** For every client with a configured discovery URL, the first
metadata resolution performs exactly one discovery fetch, merges the fetched
document into the cached metadata map and clears the discovery URL; the
second (and hence every subsequent) resolution returns that cache with no
network call and no state change, so the remote fetch happens at most once. -/
theorem metadata_discovery_fetch_once (w : World) (app : RemoteApp) (u : String)
    (h : app.server_metadata_url = some u) :
    (load_server_metadata w app).2.2 = [Event.discoveryFetch u] ∧
    (load_server_metadata w app).2.1.server_metadata_url = none ∧
    (load_server_metadata w app).1
      = metaUpdate app.server_metadata (w.discovery u) ∧
    (load_server_metadata w app).2.1.server_metadata
      = metaUpdate app.server_metadata (w.discovery u) ∧
    load_server_metadata w (load_server_metadata w app).2.1
      = ((load_server_metadata w app).1, (load_server_metadata w app).2.1, []) := by
  refine ⟨?_, ?_, ?_, ?_, ?_⟩ <;>
    simp [load_server_metadata, h]

/-- A concrete world used by the concrete evaluations below. -/
def w0 : World where
  discovery := fun _ => { issuer := some "https://idp" }
  jwks_doc := fun _ => []
  request_token_resp := fun _ _ => []
  exchange1 := fun _ _ _ => {}
  exchange2 := fun _ _ => {}
  http := fun _ _ _ => {}
  urljoin := fun a b => a ++ b
  atHash := fun a => a
  genState := "generated-state"
  now := 0

/-- A concrete client with a configured discovery URL. -/
def appDisc : RemoteApp where
  server_metadata_url := some "https://idp/.well-known"

/-- Witness for C3 at a concrete client and world. -/
theorem metadata_discovery_fetch_once_witness :
    (appDisc.server_metadata_url = some "https://idp/.well-known") ∧
    (load_server_metadata w0 appDisc).2.2
      = [Event.discoveryFetch "https://idp/.well-known"] := by
  constructor
  · rfl
  · exact (metadata_discovery_fetch_once w0 appDisc
      "https://idp/.well-known" rfl).1

/-! ## ID Token Verifier (`parse_id_token`, lines 183-221, and
`_fetch_jwk_set`, lines 223-235) -/

/-- Handy consequences of `_load_server_metadata`: its resulting state always
has a cleared discovery URL, and its cached map equals the returned map. -/
theorem load_server_metadata_url_cleared (w : World) (app : RemoteApp) :
    (load_server_metadata w app).2.1.server_metadata_url = none ∧
    (load_server_metadata w app).2.1.server_metadata
      = (load_server_metadata w app).1 := by
  cases h : app.server_metadata_url <;> simp [load_server_metadata, h]

/-- The discovery fetch never emits a JWKS fetch event. -/
theorem load_server_metadata_no_jwks_fetch (w : World) (app : RemoteApp) :
    ∀ e ∈ (load_server_metadata w app).2.2, isJwksFetch e = false := by
  cases h : app.server_metadata_url <;>
    simp [load_server_metadata, h, isJwksFetch]

/-- `_fetch_jwk_set` (lines 223-235): load the server metadata, return the
cached `jwks` entry unless it is absent or a forced refresh was requested;
otherwise fetch the key set from `jwks_uri` (`RuntimeError` when that is
missing too) and store it into the metadata cache. -/
def fetch_jwk_set_refresh (w : World) (app1 : RemoteApp) (t1 : List Event)
    (metadata : Metadata) : Except Err JWKSet × RemoteApp × List Event :=
  match metadata.jwks_uri with
  | none => (.error .missingJwksUri, app1, t1)
  | some uri =>
      (.ok (w.jwks_doc uri),
       { app1 with
           server_metadata :=
             { app1.server_metadata with jwks := some (w.jwks_doc uri) } },
       t1 ++ [Event.jwksFetch uri])

def fetch_jwk_set (w : World) (app : RemoteApp) (force : Bool) :
    Except Err JWKSet × RemoteApp × List Event :=
  let metadata := (load_server_metadata w app).1
  let app1 := (load_server_metadata w app).2.1
  let t1 := (load_server_metadata w app).2.2
  match metadata.jwks with
  | some s =>
      if force then fetch_jwk_set_refresh w app1 t1 metadata
      else (.ok s, app1, t1)
  | none => fetch_jwk_set_refresh w app1 t1 metadata

/-- With a cleared discovery URL and a cached key set, `_fetch_jwk_set`
without force is a pure cache read. -/
theorem fetch_jwk_set_cached (w : World) (app : RemoteApp)
    (hurl : app.server_metadata_url = none)
    (s : JWKSet) (hj : app.server_metadata.jwks = some s) :
    fetch_jwk_set w app false = (.ok s, app, []) := by
  simp [fetch_jwk_set, load_server_metadata_cached w app hurl, hj]

/-- The event trace of `_fetch_jwk_set` is the metadata-load trace, possibly
followed by one JWKS fetch. -/
theorem fetch_jwk_set_trace (w : World) (app : RemoteApp) (force : Bool) :
    (fetch_jwk_set w app force).2.2 = (load_server_metadata w app).2.2 ∨
    ∃ uri, (fetch_jwk_set w app force).2.2
      = (load_server_metadata w app).2.2 ++ [Event.jwksFetch uri] := by
  cases hj : (load_server_metadata w app).1.jwks with
  | none =>
      cases hu : (load_server_metadata w app).1.jwks_uri with
      | none =>
          left; simp [fetch_jwk_set, fetch_jwk_set_refresh, hj, hu]
      | some uri =>
          right
          exact ⟨uri, by simp [fetch_jwk_set, fetch_jwk_set_refresh, hj, hu]⟩
  | some s =>
      cases force with
      | false => left; simp [fetch_jwk_set, hj]
      | true =>
          cases hu : (load_server_metadata w app).1.jwks_uri with
          | none =>
              left; simp [fetch_jwk_set, fetch_jwk_set_refresh, hj, hu]
          | some uri =>
              right
              exact ⟨uri, by simp [fetch_jwk_set, fetch_jwk_set_refresh, hj, hu]⟩

/-- Unforced, with a cached key set, `_fetch_jwk_set` adds no event. -/
theorem fetch_jwk_set_trace_cached (w : World) (app : RemoteApp)
    (hs : (load_server_metadata w app).1.jwks.isSome) :
    (fetch_jwk_set w app false).2.2 = (load_server_metadata w app).2.2 := by
  obtain ⟨s, hj⟩ := Option.isSome_iff_exists.mp hs
  simp [fetch_jwk_set, hj]

/-- `_fetch_jwk_set` performs at most one JWKS fetch, and none at all when
the cached metadata already holds a key set and no refresh is forced. -/
theorem fetch_jwk_set_events (w : World) (app : RemoteApp) (force : Bool) :
    (fetch_jwk_set w app force).2.2.countP (fun e => isJwksFetch e) ≤ 1 ∧
    ((load_server_metadata w app).1.jwks.isSome →
      (fetch_jwk_set w app false).2.2.countP (fun e => isJwksFetch e) = 0) := by
  have hall := load_server_metadata_no_jwks_fetch w app
  have h0 : (load_server_metadata w app).2.2.countP (fun e => isJwksFetch e) = 0 := by
    rw [List.countP_eq_zero]
    intro a ha
    simp [hall a ha]
  constructor
  · rcases fetch_jwk_set_trace w app force with h | ⟨uri, h⟩
    · rw [h, h0]
      omega
    · rw [h, List.countP_append, h0]
      simp [isJwksFetch]
  · intro hs
    rw [fetch_jwk_set_trace_cached w app hs, h0]

/-- When the metadata (after loading) offers either a cached key set or a
`jwks_uri`, the unforced `_fetch_jwk_set` succeeds. -/
theorem fetch_jwk_set_ok_of_available (w : World) (app : RemoteApp)
    (hav : (load_server_metadata w app).1.jwks.isSome
        ∨ (load_server_metadata w app).1.jwks_uri.isSome) :
    ∃ s, (fetch_jwk_set w app false).1 = .ok s := by
  cases hj : (load_server_metadata w app).1.jwks with
  | some s =>
      exact ⟨s, by simp [fetch_jwk_set, hj]⟩
  | none =>
      cases hu : (load_server_metadata w app).1.jwks_uri with
      | some uri =>
          exact ⟨w.jwks_doc uri,
            by simp [fetch_jwk_set, fetch_jwk_set_refresh, hj, hu]⟩
      | none =>
          rcases hav with h | h
          · rw [hj] at h; simp at h
          · rw [hu] at h; simp at h

/-- Modelled from the spec: `jwk.loads(obj, kid)` from `authlib.jose` (not
under `src/`): resolves the signing key by key id from the JWK set; when no
key of the set carries the requested id the lookup fails (a `ValueError` in
the source, `Err.invalidKey` here). -/
def jwk_loads (s : JWKSet) (kid : Option String) : Except Err JWK :=
  match List.find? (fun key => some key.kid = kid) s with
  | some key => .ok key
  | none => .error .invalidKey

/-- `load_key(header, payload)` (lines 209-211): a plain lookup of the
header's `kid` in the key set fetched before decoding.  The reload marked
`TODO: reload jwk set if invalid` in the source is not implemented, so this
step can perform no network effect. -/
def load_key (jwk_set : JWKSet) (kid : Option String) : Except Err JWK :=
  jwk_loads jwk_set kid

/-- Lines 203-205: allowed signing algorithms come from the discovered
`id_token_signing_alg_values_supported`; a missing (or falsy, i.e. empty)
entry defaults to `["RS256"]`. -/
def allowed_algs (metadata : Metadata) : List String :=
  match metadata.id_token_signing_alg_values_supported with
  | some l => if l.isEmpty then ["RS256"] else l
  | none => ["RS256"]

/-- The claims options handed to the decoder (`{'iss': {'values': [...]}}`). -/
structure ClaimsOptions where
  iss_values : Option (List String) := none
  deriving DecidableEq, Repr

/-- The claims parameters built at lines 189-194. -/
structure ClaimsParams where
  nonce : Option String := none
  client_id : Option String := none
  access_token : Option String := none
  deriving DecidableEq, Repr

/-- The claims shape selected at lines 193-197: `CodeIDToken` when the token
response carries an `access_token`, else `ImplicitIDToken`. -/
inductive ClaimsCls where
  | codeIDToken
  | implicitIDToken
  deriving DecidableEq, Repr

/-- Modelled from the spec: the algorithm gate and signature check of
`JsonWebToken(alg_values).decode` from `authlib.jose` (not under `src/`).
Per §4.4 and §7, a token whose `alg` lies outside the allow-list is an
`InvalidIDToken` failure regardless of signature validity; otherwise the
signing key is obtained through the `load_key` callback (whose failure
propagates) and the signature is verified against it, yielding the decoded
claims. -/
def jwt_decode (alg_values : List String) (jwk_set : JWKSet)
    (idt : IDToken) : Except Err Claims :=
  if alg_values.contains idt.alg then
    match load_key jwk_set idt.kid with
    | .error e => .error e
    | .ok key =>
        if key.material = idt.signedWith then .ok idt.claims
        else .error .invalidIDToken
  else .error .invalidIDToken

/-- Modelled from the spec: issuer validation of `claims.validate` — when
issuer values are configured, the `iss` claim must equal one of them. -/
def issOk (opts : Option ClaimsOptions) (c : Claims) : Bool :=
  match opts with
  | none => true
  | some o =>
      match o.iss_values with
      | none => true
      | some vs =>
          match c.iss with
          | some i => vs.contains i
          | none => false

/-- Modelled from the spec: nonce validation of `claims.validate` — the
`nonce` claim must equal the nonce stored at authorization time, when one
was stored. -/
def nonceOk (params : ClaimsParams) (c : Claims) : Bool :=
  match params.nonce with
  | none => true
  | some n => c.nonce = some n

/-- Modelled from the spec: expiry validation of `claims.validate` within the
leeway window. -/
def expOk (leeway now : Nat) (c : Claims) : Bool :=
  match c.exp with
  | none => true
  | some e => decide (now ≤ e + leeway)

/-- Modelled from the spec: the `at_hash` check of the `CodeIDToken` claims
shape — when the claims carry `at_hash`, it must equal the hash of the
access token of the response. -/
def atHashOk (cls : ClaimsCls) (hash : String → String)
    (params : ClaimsParams) (c : Claims) : Bool :=
  match cls with
  | .implicitIDToken => true
  | .codeIDToken =>
      match c.at_hash with
      | none => true
      | some h =>
          match params.access_token with
          | none => false
          | some at_tok => h = hash at_tok

/-- Modelled from the spec: `claims.validate(leeway=120)` of the
`authlib.oidc.core` claims classes (not under `src/`): issuer equality
against the configured values, nonce equality against the nonce stored at
authorization time, time-based claims within the leeway window, and the
`at_hash` binding of the code flow; any failure is an `InvalidIDToken`
error (§7). -/
def claims_validate (cls : ClaimsCls) (leeway now : Nat)
    (hash : String → String) (opts : Option ClaimsOptions)
    (params : ClaimsParams) (c : Claims) : Except Err Unit :=
  if issOk opts c && nonceOk params c && expOk leeway now c
      && atHashOk cls hash params c then .ok ()
  else .error .invalidIDToken

/-- `parse_id_token` (lines 183-221): `none` when the token response has no
`id_token`; otherwise builds the claims parameters from the session nonce,
the client id and the response's access token, selects the claims shape,
loads the server metadata (defaulting the issuer claim option from it),
computes the algorithm allow-list, fetches the JWK set, decodes the ID token
against it and validates the claims with a 120-second leeway. -/
def parse_id_token (w : World) (app : RemoteApp) (session : SessionData)
    (token : Token) (claims_options : Option ClaimsOptions) :
    Except Err (Option Claims) × RemoteApp × List Event :=
  match token.id_token with
  | none => (.ok none, app, [])
  | some idt =>
      let claims_params : ClaimsParams :=
        { nonce := session.nonce
          client_id := app.client_id
          access_token := token.access_token }
      let claims_cls :=
        if token.access_token.isSome then ClaimsCls.codeIDToken
        else ClaimsCls.implicitIDToken
      let metadata := (load_server_metadata w app).1
      let app1 := (load_server_metadata w app).2.1
      let t1 := (load_server_metadata w app).2.2
      let claims_options1 :=
        match claims_options, metadata.issuer with
        | none, some iss => some { iss_values := some [iss] }
        | co, _ => co
      let alg_values := allowed_algs metadata
      let app2 := (fetch_jwk_set w app1 false).2.1
      let t2 := (fetch_jwk_set w app1 false).2.2
      let outcome : Except Err (Option Claims) :=
        match (fetch_jwk_set w app1 false).1 with
        | .error e => .error e
        | .ok jwk_set =>
            match jwt_decode alg_values jwk_set idt with
            | .error e => .error e
            | .ok claims =>
                match claims_validate claims_cls 120 w.now w.atHash
                    claims_options1 claims_params claims with
                | .error e => .error e
                | .ok _ => .ok (some claims)
      (outcome, app2, t1 ++ t2)

/-- A second metadata resolution (as happens inside `_fetch_jwk_set` after
`parse_id_token` already resolved) is a no-op on the once-loaded state. -/
theorem load_server_metadata_reload (w : World) (app : RemoteApp) :
    load_server_metadata w (load_server_metadata w app).2.1
      = ((load_server_metadata w app).1, (load_server_metadata w app).2.1, []) := by
  obtain ⟨h1, h2⟩ := load_server_metadata_url_cleared w app
  rw [load_server_metadata_cached w _ h1, h2]

/-! ## Claims about the ID Token Verifier -/

/-- **C8.** A token mapping with no `id_token` entry makes `parse_id_token`
return `none` as normal control flow: no error, no state change, no network
call — no validation of any kind is attempted. -/
theorem parse_id_token_missing_id_token (w : World) (app : RemoteApp)
    (session : SessionData) (token : Token) (co : Option ClaimsOptions)
    (h : token.id_token = none) :
    parse_id_token w app session token co = (.ok none, app, []) := by
  simp [parse_id_token, h]

/-- Witness for C8: a code-flow token response without an `id_token`. -/
theorem parse_id_token_missing_id_token_witness :
    (({ access_token := some "atk" } : Token).id_token = none) ∧
    parse_id_token w0 appDisc {} { access_token := some "atk" } none
      = (.ok none, appDisc, []) :=
  ⟨rfl, parse_id_token_missing_id_token w0 appDisc {}
    { access_token := some "atk" } none rfl⟩

/-- **C2.** For every token response carrying an `id_token`, the allowed
signing algorithms are the discovered
`id_token_signing_alg_values_supported`, defaulting to exactly `["RS256"]`
when that entry is absent (second conjunct); an ID token whose `alg` lies
outside this allow-list fails with `InvalidIDToken` regardless of signature
validity — the hypotheses constrain only the algorithm, never the
signature — provided the key-set resolution that precedes decoding can
proceed (a cached `jwks` or a `jwks_uri` is available). -/
theorem id_token_alg_allow_list_enforced (w : World) (app : RemoteApp)
    (session : SessionData) (token : Token) (co : Option ClaimsOptions)
    (idt : IDToken) (h : token.id_token = some idt)
    (hav : (load_server_metadata w app).1.jwks.isSome
        ∨ (load_server_metadata w app).1.jwks_uri.isSome)
    (halg : (allowed_algs (load_server_metadata w app).1).contains idt.alg
        = false) :
    (parse_id_token w app session token co).1 = .error .invalidIDToken ∧
    (∀ md : Metadata, md.id_token_signing_alg_values_supported = none →
      allowed_algs md = ["RS256"]) := by
  constructor
  · have hav1 : (load_server_metadata w (load_server_metadata w app).2.1).1.jwks.isSome
        ∨ (load_server_metadata w (load_server_metadata w app).2.1).1.jwks_uri.isSome := by
      rw [load_server_metadata_reload]
      exact hav
    obtain ⟨s, hok⟩ :=
      fetch_jwk_set_ok_of_available w (load_server_metadata w app).2.1 hav1
    have hcond : ¬ ((allowed_algs (load_server_metadata w app).1).contains idt.alg
        = true) := by
      rw [halg]
      exact Bool.false_ne_true
    have hdec : jwt_decode (allowed_algs (load_server_metadata w app).1) s idt
        = .error .invalidIDToken := by
      unfold jwt_decode
      rw [if_neg hcond]
    simp [parse_id_token, h, hok, hdec]
  · intro md hmd
    simp [allowed_algs, hmd]

/-- A concrete key set holding the single key `kid-a`. -/
def jwkA : JWK := { kid := "kid-a", material := "material-a" }

/-- A concrete client whose metadata cache already holds a JWK set (no
discovery URL, no declared algorithm list, so the `["RS256"]` default
applies). -/
def appJwks : RemoteApp where
  client_id := some "cid"
  server_metadata := { jwks := some [jwkA] }

/-- An ID token signed with `HS256` — outside the default allow-list — whose
signature is nevertheless VALID for the cached key `kid-a`. -/
def idtHS : IDToken :=
  { alg := "HS256", kid := some "kid-a", signedWith := "material-a"
    claims := {} }

/-- Witness for C2: the well-signed `HS256` token is rejected with
`InvalidIDToken` under the defaulted `["RS256"]` allow-list. -/
theorem id_token_alg_allow_list_enforced_witness :
    (({ id_token := some idtHS } : Token).id_token = some idtHS) ∧
    ((allowed_algs (load_server_metadata w0 appJwks).1).contains idtHS.alg
      = false) ∧
    (parse_id_token w0 appJwks {} { id_token := some idtHS } none).1
      = .error .invalidIDToken :=
  ⟨rfl, rfl,
    (id_token_alg_allow_list_enforced w0 appJwks {} { id_token := some idtHS }
      none idtHS rfl (Or.inl rfl) rfl).1⟩

/-- An ID token whose `kid` is absent from the cached key set. -/
def idtMissingKid : IDToken :=
  { alg := "RS256", kid := some "kid-unknown", signedWith := "material-a"
    claims := {} }

/-- **C1 counterexample.** The claim asserts that an unknown key id triggers
one forced JWK-set refresh and a retried lookup.  At a concrete verification
whose cached JWK set lacks the token's key id, the code performs no JWKS
fetch at all — the event trace is empty, so there is no forced refresh and
no retry; the key lookup simply fails (`load_key` carries only a
`TODO: reload jwk set if invalid` comment). -/
theorem jwks_forced_refresh_counterexample :
    parse_id_token w0 appJwks {} { id_token := some idtMissingKid } none
      = (.error .invalidKey, appJwks, []) := by
  rfl

/-- **C1 (amended).** Per verification, `parse_id_token` performs at most one
JWK-set fetch, and none at all when the metadata cache already holds a key
set — in particular never a second, forced one.  When the key id of the
token header is not found in the cached JWK set, no refresh and no retried
lookup occur: the key lookup fails the verification directly. -/
theorem jwks_fetch_at_most_once_no_kid_retry (w : World) (app : RemoteApp)
    (session : SessionData) (token : Token) (co : Option ClaimsOptions) :
    (parse_id_token w app session token co).2.2.countP
        (fun e => isJwksFetch e) ≤ 1 ∧
    ((load_server_metadata w app).1.jwks.isSome →
      (parse_id_token w app session token co).2.2.countP
        (fun e => isJwksFetch e) = 0) ∧
    (∀ idt s, token.id_token = some idt →
      (load_server_metadata w app).1.jwks = some s →
      (allowed_algs (load_server_metadata w app).1).contains idt.alg = true →
      jwk_loads s idt.kid = .error .invalidKey →
      (parse_id_token w app session token co).1 = .error .invalidKey) := by
  have hall := load_server_metadata_no_jwks_fetch w app
  have h0 : (load_server_metadata w app).2.2.countP (fun e => isJwksFetch e)
      = 0 := by
    rw [List.countP_eq_zero]
    intro a ha
    simp [hall a ha]
  cases h : token.id_token with
  | none =>
      refine ⟨?_, ?_, ?_⟩
      · simp [parse_id_token, h]
      · intro _
        simp [parse_id_token, h]
      · intro idt s hid
        cases hid
  | some idt0 =>
      have htrace : (parse_id_token w app session token co).2.2
          = (load_server_metadata w app).2.2
            ++ (fetch_jwk_set w (load_server_metadata w app).2.1 false).2.2 := by
        simp [parse_id_token, h]
      have hfe := fetch_jwk_set_events w (load_server_metadata w app).2.1 false
      refine ⟨?_, ?_, ?_⟩
      · rw [htrace, List.countP_append, h0]
        simpa using hfe.1
      · intro hs
        have hs1 : (load_server_metadata w (load_server_metadata w app).2.1).1.jwks.isSome := by
          rw [load_server_metadata_reload]
          exact hs
        rw [htrace, List.countP_append, h0, hfe.2 hs1]
      · intro idt s hid hj halg hload
        injection hid with he
        subst he
        obtain ⟨hurl, hsm⟩ := load_server_metadata_url_cleared w app
        have hj1 : (load_server_metadata w app).2.1.server_metadata.jwks = some s := by
          rw [hsm, hj]
        have hok : fetch_jwk_set w (load_server_metadata w app).2.1 false
            = (.ok s, (load_server_metadata w app).2.1, []) :=
          fetch_jwk_set_cached w (load_server_metadata w app).2.1 hurl s hj1
        have hlk : load_key s idt0.kid = .error .invalidKey := hload
        have hdec : jwt_decode (allowed_algs (load_server_metadata w app).1) s idt0
            = .error .invalidKey := by
          unfold jwt_decode
          rw [if_pos halg, hlk]
        simp [parse_id_token, h, hok, hdec]

/-- Witness for C1: at the concrete kid-miss verification above, zero JWKS
fetches happen and the outcome is the propagated key-lookup failure. -/
theorem jwks_fetch_at_most_once_no_kid_retry_witness :
    (parse_id_token w0 appJwks {} { id_token := some idtMissingKid } none).2.2.countP
        (fun e => isJwksFetch e) = 0 ∧
    (parse_id_token w0 appJwks {} { id_token := some idtMissingKid } none).1
      = .error .invalidKey :=
  ⟨(jwks_fetch_at_most_once_no_kid_retry w0 appJwks {}
      { id_token := some idtMissingKid } none).2.1 rfl,
   (jwks_fetch_at_most_once_no_kid_retry w0 appJwks {}
      { id_token := some idtMissingKid } none).2.2 idtMissingKid [jwkA]
      rfl rfl rfl rfl⟩

/-! ## Authenticated Request Gateway (`request`, lines 148-167) -/

/-- Lines 149-150: resolve the URL against `api_base_url` when one is
configured and the URL is not already absolute. -/
def resolve_url (w : World) (app : RemoteApp) (url : String) : String :=
  match app.api_base_url with
  | some base =>
      if url.startsWith "https://" || url.startsWith "http://" then url
      else w.urljoin base url
  | none => url

/-- `request` (lines 148-167): resolve the URL, serve `withhold_token` calls
with no token resolution at all, otherwise resolve the token — the explicit
`token` argument first, else the `_fetch_token` hook applied to the supplied
inbound request context (`request` keyword) — and fail with
`MissingTokenError` when none resolves; on success the call goes out with
the resolved token attached.  There is no session-token path in this
function: only the argument and the hook can produce a token. -/
def request (w : World) (app : RemoteApp) (method url : String)
    (token : Option Token) (withhold_token : Bool)
    (request_ctx : Option ReqCtx) : Except Err Response × List Event :=
  let u := resolve_url w app url
  if withhold_token then
    (.ok (w.http method u none), [Event.apiRequest method u none])
  else
    let resolved : Option Token × List Event :=
      match token, request_ctx, app.fetch_token with
      | none, some ctx, some hook => (hook ctx, [Event.hookInvoked])
      | none, _, _ => (none, [])
      | some t, _, _ => (some t, [])
    match resolved.1 with
    | none => (.error .missingToken, resolved.2)
    | some t =>
        (.ok (w.http method u (some t)),
         resolved.2 ++ [Event.apiRequest method u (some t)])

/-- **C7.** With `withhold_token` set, `request` performs the call with no
token resolution at all: the result is the plain unauthenticated call, the
token-resolution hook is never invoked (no `hookInvoked` event), whatever
token material is or is not available. -/
theorem request_withhold_token_no_resolution (w : World) (app : RemoteApp)
    (method url : String) (token : Option Token) (ctx : Option ReqCtx) :
    request w app method url token true ctx
      = (.ok (w.http method (resolve_url w app url) none),
         [Event.apiRequest method (resolve_url w app url) none]) ∧
    Event.hookInvoked ∉ (request w app method url token true ctx).2 := by
  refine ⟨rfl, ?_⟩
  simp [request]

/-- **C6.** With no explicit token, no token produced by the resolution hook
(absent hook, absent request context, or a hook answering `none`) — and
there being no session-token path in `request` at all — the call fails with
`MissingToken` and performs no network call. -/
theorem request_missing_token (w : World) (app : RemoteApp)
    (method url : String) (request_ctx : Option ReqCtx)
    (hres : ∀ ctx hook, request_ctx = some ctx →
      app.fetch_token = some hook → hook ctx = none) :
    (request w app method url none false request_ctx).1
      = .error .missingToken ∧
    ∀ e ∈ (request w app method url none false request_ctx).2,
      e.isNetworkCall = false := by
  cases hc : request_ctx with
  | none =>
      cases hh : app.fetch_token <;>
        simp [request, hc, hh, Event.isNetworkCall]
  | some ctx =>
      cases hh : app.fetch_token with
      | none => simp [request, hc, hh, Event.isNetworkCall]
      | some hook =>
          have h1 : hook ctx = none := hres ctx hook hc hh
          simp [request, hc, hh, h1, Event.isNetworkCall]

/-- Witness for C6: a client with no hook, called with no token and no
request context. -/
theorem request_missing_token_witness :
    (request w0 appJwks "GET" "https://api/resource" none false none).1
      = .error .missingToken :=
  (request_missing_token w0 appJwks "GET" "https://api/resource" none
    (fun ctx hook hc _ => by cases hc)).1

/-- A client configured with a token-resolution hook that always resolves a
token. -/
def appHook : RemoteApp where
  api_base_url := some "https://api/"
  fetch_token := some (fun _ => some { access_token := some "resolved" })

/-- **C10.** The token-resolution hook is consulted only when an inbound
request context is supplied through the `request` keyword argument: with a
hook configured but no explicit token and no request context, `request`
fails with `MissingToken`, and its (empty) event trace shows the hook was
never invoked and nothing reached the network. -/
theorem request_hook_needs_request_context (w : World) (app : RemoteApp)
    (method url : String) (hook : ReqCtx → Option Token)
    (_hh : app.fetch_token = some hook) :
    request w app method url none false none
      = (.error .missingToken, []) ∧
    Event.hookInvoked ∉ (request w app method url none false none).2 := by
  constructor
  · simp [request]
  · simp [request]

/-- Witness for C10: `appHook` carries a hook that would resolve a token,
yet without a request context the call still fails with `MissingToken`. -/
theorem request_hook_needs_request_context_witness :
    request w0 appHook "GET" "resource" none false none
      = (.error .missingToken, []) :=
  (request_hook_needs_request_context w0 appHook "GET" "resource"
    (fun _ => some { access_token := some "resolved" }) rfl).1

/-! ## OAuth1 / OAuth2 Flow Drivers (`create_authorization_url`,
lines 51-88, and `fetch_access_token`, lines 112-146) -/

/-- A URL as the embedding observes it: an endpoint and its query
parameters. -/
structure Url where
  base : String
  query : List (String × String) := []
  deriving DecidableEq, Repr

/-- The dictionary returned by `create_authorization_url`: the URL plus
`state` (OAuth2) or `request_token` (OAuth1), for the caller to persist. -/
structure AuthRV where
  url : Url
  state : Option String := none
  request_token : Option (List (String × Option String)) := none
  deriving DecidableEq, Repr

/-- Modelled from the spec: `_create_oauth2_authorization_url` of the shared
base client together with the oauth2 client's `create_authorization_url`
(not under `src/`): per §4.3 the built URL contains `client_id`,
`redirect_uri`, `state` (generated when the merged params supply none) and
the merged params; the state is returned alongside for the caller to
persist. -/
def create_oauth2_authorization_url (genState : String)
    (client_id : Option String) (redirect_uri : Option String)
    (endpoint : String) (kwargs : List (String × String)) : AuthRV :=
  let state :=
    match dlookup kwargs "state" with
    | some s => s
    | none => genState
  let standard :=
    (match client_id with
     | some cid => [("client_id", cid)]
     | none => []) ++
    (match redirect_uri with
     | some ru => [("redirect_uri", ru)]
     | none => [])
  { url := { base := endpoint
             query := dictUpdate (dictUpdate standard kwargs) [("state", state)] }
    state := some state
    request_token := none }

/-- Modelled from the spec: the OAuth1 client's `create_authorization_url`
(not under `src/`) builds the authorization URL by appending the request
token as a query parameter to the authorization endpoint (§4.2). -/
def oauth1_authorization_url (endpoint : String)
    (rt : List (String × Option String))
    (kwargs : List (String × String)) : Url :=
  { base := endpoint
    query := dictUpdate kwargs
      (match dlookup rt "oauth_token" with
       | some (some tok) => [("oauth_token", tok)]
       | _ => []) }

/-- `create_authorization_url` (lines 62-88, with
`_create_oauth1_authorization_url`, lines 51-60): load the server metadata;
take the authorization endpoint from the static `authorize_url`, else — for
OAuth2 only — from the discovered metadata (`RuntimeError` when neither is
present); then `kwargs.update(self.authorize_params)` merges the static
authorize params OVER the kwargs supplied by the caller; finally branch on
`request_token_url` into the OAuth1 handshake (fetch a request token, put it
in the URL and the result) or the OAuth2 URL construction. -/
def create_authorization_url (w : World) (app : RemoteApp)
    (redirect_uri : Option String) (kwargs : List (String × String)) :
    Except Err AuthRV × RemoteApp × List Event :=
  let metadata := (load_server_metadata w app).1
  let app1 := (load_server_metadata w app).2.1
  let t1 := (load_server_metadata w app).2.2
  let authorization_endpoint :=
    match app.authorize_url with
    | some u => some u
    | none =>
        if app.request_token_url.isSome then none
        else metadata.authorization_endpoint
  match authorization_endpoint with
  | none => (.error .missingAuthorizeUrl, app1, t1)
  | some endpoint =>
      let kwargs1 :=
        if app.authorize_params.isEmpty then kwargs
        else dictUpdate kwargs app.authorize_params
      match app.request_token_url with
      | some rtu =>
          let rt := w.request_token_resp rtu app.request_token_params
          (.ok { url := oauth1_authorization_url endpoint rt kwargs1
                 state := none
                 request_token := some rt },
           app1, t1 ++ [Event.requestTokenFetch rtu])
      | none =>
          (.ok (create_oauth2_authorization_url w.genState app.client_id
              redirect_uri endpoint kwargs1),
           app1, t1)

/-- Lines 122-124: the token endpoint is the static `access_token_url`,
else — for OAuth2 only — the discovered `token_endpoint`. -/
def fetch_token_endpoint (app : RemoteApp) (metadata : Metadata) :
    Option String :=
  match app.access_token_url with
  | some u => some u
  | none =>
      if app.request_token_url.isSome then none
      else metadata.token_endpoint

/-- `fetch_access_token` (lines 112-146): load the server metadata; take the
token endpoint from the static `access_token_url`, else — for OAuth2 only —
from discovered metadata.  OAuth1: a missing request token is a
`MissingRequestTokenError`; otherwise the request token merged with the
verifier params becomes the active credential, exchanged with the statically
configured access-token params.  OAuth2: the static access-token params
merged under the caller params feed the authorization-code exchange.  The
exchange parameters are recorded on the exchange event. -/
def fetch_access_token (w : World) (app : RemoteApp)
    (_redirect_uri : Option String)
    (request_token : Option (List (String × Option String)))
    (params : List (String × Option String)) :
    Except Err Token × RemoteApp × List Event :=
  let metadata := (load_server_metadata w app).1
  let app1 := (load_server_metadata w app).2.1
  let t1 := (load_server_metadata w app).2.2
  let token_endpoint := fetch_token_endpoint app metadata
  match app.request_token_url with
  | some _ =>
      match request_token with
      | none => (.error .missingRequestToken, app1, t1)
      | some rt =>
          let credential := dictUpdate rt params
          let kwargs := app.access_token_params
          (.ok (w.exchange1 token_endpoint credential kwargs), app1,
           t1 ++ [Event.oauth1Exchange token_endpoint credential kwargs])
  | none =>
      let kwargs := dictUpdate app.access_token_params params
      (.ok (w.exchange2 token_endpoint kwargs), app1,
       t1 ++ [Event.oauth2Exchange token_endpoint kwargs])

/-- The metadata-load trace is empty or a single discovery fetch. -/
theorem load_server_metadata_trace (w : World) (app : RemoteApp) :
    (load_server_metadata w app).2.2 = [] ∨
    ∃ u, (load_server_metadata w app).2.2 = [Event.discoveryFetch u] := by
  cases h : app.server_metadata_url with
  | none => left; simp [load_server_metadata, h]
  | some u => right; exact ⟨u, by simp [load_server_metadata, h]⟩

/-- An OAuth1 client (no discovery URL configured). -/
def appO1 : RemoteApp where
  request_token_url := some "https://idp/request-token"

/-- An OAuth1 client that also carries an unloaded discovery URL. -/
def appO1disc : RemoteApp where
  request_token_url := some "https://idp/request-token"
  server_metadata_url := some "https://idp/.well-known"

/-- **C5 counterexample.** The claim says a `fetch_access_token` call without
a request token "issues no network call".  For an OAuth1 client that also
has an unloaded discovery URL, the call does fail with
`MissingRequestToken`, but only after `_load_server_metadata` has already
issued the discovery network fetch (line 121 precedes the line 130 raise). -/
theorem oauth1_missing_request_token_counterexample :
    (fetch_access_token w0 appO1disc none none []).1
      = .error .missingRequestToken ∧
    (fetch_access_token w0 appO1disc none none []).2.2
      = [Event.discoveryFetch "https://idp/.well-known"] ∧
    Event.isNetworkCall (Event.discoveryFetch "https://idp/.well-known")
      = true :=
  ⟨rfl, rfl, rfl⟩

/-- **C5 (amended).** For an OAuth1 client, `fetch_access_token` without a
previously issued request token fails with `MissingRequestToken` and issues
no token-exchange network call; the only network traffic that can precede
the failure is the one-time metadata discovery fetch, and with no (pending)
discovery URL configured the call performs no network call at all and
leaves the client unchanged. -/
theorem oauth1_missing_request_token (w : World) (app : RemoteApp)
    (ru : Option String) (params : List (String × Option String))
    (h : app.request_token_url.isSome) :
    (fetch_access_token w app ru none params).1
      = .error .missingRequestToken ∧
    (∀ e ∈ (fetch_access_token w app ru none params).2.2,
      ∃ u, e = Event.discoveryFetch u) ∧
    (app.server_metadata_url = none →
      fetch_access_token w app ru none params
        = (.error .missingRequestToken, app, [])) := by
  obtain ⟨rtu, hr⟩ := Option.isSome_iff_exists.mp h
  refine ⟨?_, ?_, ?_⟩
  · simp [fetch_access_token, hr]
  · have htr : (fetch_access_token w app ru none params).2.2
        = (load_server_metadata w app).2.2 := by
      simp [fetch_access_token, hr]
    intro e he
    rw [htr] at he
    rcases load_server_metadata_trace w app with h0 | ⟨u, h0⟩
    · rw [h0] at he
      cases he
    · rw [h0] at he
      rcases List.mem_singleton.mp he with rfl
      exact ⟨u, rfl⟩
  · intro hu
    simp [fetch_access_token, hr, load_server_metadata_cached w app hu]

/-- Witness for C5: an OAuth1 client with no discovery URL fails cleanly
with an empty trace. -/
theorem oauth1_missing_request_token_witness :
    (appO1.request_token_url.isSome = true) ∧
    fetch_access_token w0 appO1 none none []
      = (.error .missingRequestToken, appO1, []) :=
  ⟨rfl, (oauth1_missing_request_token w0 appO1 none [] rfl).2.2 rfl⟩

/-- Structural properties of the modelled OAuth2 URL builder: endpoint,
presence of the merged params, of `client_id` and `redirect_uri` (when not
shadowed by an explicit param of the same name), and of the state —
generated exactly when the merged params supply none. -/
theorem create_oauth2_authorization_url_props (genState : String)
    (client_id redirect_uri : Option String) (ep : String)
    (kw : List (String × String)) :
    (create_oauth2_authorization_url genState client_id redirect_uri ep kw).url.base
      = ep ∧
    (∀ k v, k ≠ "state" → dlookup kw k = some v →
      dlookup (create_oauth2_authorization_url genState client_id redirect_uri ep
        kw).url.query k = some v) ∧
    (∀ cid, client_id = some cid → dlookup kw "client_id" = none →
      dlookup (create_oauth2_authorization_url genState client_id redirect_uri ep
        kw).url.query "client_id" = some cid) ∧
    (∀ ru, redirect_uri = some ru → dlookup kw "redirect_uri" = none →
      dlookup (create_oauth2_authorization_url genState client_id redirect_uri ep
        kw).url.query "redirect_uri" = some ru) ∧
    (dlookup (create_oauth2_authorization_url genState client_id redirect_uri ep
        kw).url.query "state"
      = some (match dlookup kw "state" with
              | some s => s
              | none => genState)) ∧
    ((create_oauth2_authorization_url genState client_id redirect_uri ep kw).state
      = some (match dlookup kw "state" with
              | some s => s
              | none => genState)) := by
  simp only [create_oauth2_authorization_url]
  refine ⟨trivial, ?_, ?_, ?_, ?_, trivial⟩
  · intro k v hk hv
    rw [dlookup_dictUpdate]
    have hst : dlookup [("state",
        match dlookup kw "state" with
        | some s => s
        | none => genState)] k = (none : Option String) := by
      simp [dlookup]
      intro he
      exact absurd he.symm hk
    rw [hst, dlookup_dictUpdate, hv]
  · intro cid hcid hnone
    rw [dlookup_dictUpdate]
    have hst : dlookup [("state",
        match dlookup kw "state" with
        | some s => s
        | none => genState)] "client_id" = (none : Option String) := by
      simp [dlookup]
    rw [hst, dlookup_dictUpdate, hnone, hcid]
    cases redirect_uri <;> simp [dlookup, dlookup_append]
  · intro ru hru hnone
    rw [dlookup_dictUpdate]
    have hst : dlookup [("state",
        match dlookup kw "state" with
        | some s => s
        | none => genState)] "redirect_uri" = (none : Option String) := by
      simp [dlookup]
    rw [hst, dlookup_dictUpdate, hnone, hru]
    cases client_id <;> simp [dlookup, dlookup_append]
  · rw [dlookup_dictUpdate]
    simp [dlookup]

/-- **C9 (amended).** For an OAuth2 client, `create_authorization_url` merges
the static authorize params over the kwargs supplied by the caller
(`kwargs.update(self.authorize_params)`): on a key present in both, the
STATIC value takes precedence.  The resulting URL contains `client_id` and
`redirect_uri` (unless shadowed by merged params of those names), a `state`
generated exactly when the merged params supply none, and every merged
param. -/
theorem create_authorization_url_oauth2_merge (w : World) (app : RemoteApp)
    (redirect_uri : Option String) (kwargs : List (String × String))
    (ep : String) (h1 : app.request_token_url = none)
    (h2 : app.authorize_url = some ep) :
    ∃ rv, (create_authorization_url w app redirect_uri kwargs).1 = .ok rv ∧
      rv.url.base = ep ∧
      (∀ k v, dlookup app.authorize_params k = some v →
        dlookup (if app.authorize_params.isEmpty then kwargs
                 else dictUpdate kwargs app.authorize_params) k = some v) ∧
      (∀ k v, k ≠ "state" →
        dlookup (if app.authorize_params.isEmpty then kwargs
                 else dictUpdate kwargs app.authorize_params) k = some v →
        dlookup rv.url.query k = some v) ∧
      (∀ cid, app.client_id = some cid →
        dlookup (if app.authorize_params.isEmpty then kwargs
                 else dictUpdate kwargs app.authorize_params) "client_id" = none →
        dlookup rv.url.query "client_id" = some cid) ∧
      (∀ ru, redirect_uri = some ru →
        dlookup (if app.authorize_params.isEmpty then kwargs
                 else dictUpdate kwargs app.authorize_params) "redirect_uri" = none →
        dlookup rv.url.query "redirect_uri" = some ru) ∧
      (dlookup rv.url.query "state"
        = some (match dlookup (if app.authorize_params.isEmpty then kwargs
                               else dictUpdate kwargs app.authorize_params) "state" with
                | some s => s
                | none => w.genState)) ∧
      (rv.state
        = some (match dlookup (if app.authorize_params.isEmpty then kwargs
                               else dictUpdate kwargs app.authorize_params) "state" with
                | some s => s
                | none => w.genState)) := by
  have hE : (create_authorization_url w app redirect_uri kwargs).1
      = .ok (create_oauth2_authorization_url w.genState app.client_id
          redirect_uri ep
          (if app.authorize_params.isEmpty then kwargs
           else dictUpdate kwargs app.authorize_params)) := by
    simp [create_authorization_url, h1, h2]
  obtain ⟨hbase, hin, hcid, hru, hst, hstate⟩ :=
    create_oauth2_authorization_url_props w.genState app.client_id redirect_uri
      ep (if app.authorize_params.isEmpty then kwargs
          else dictUpdate kwargs app.authorize_params)
  refine ⟨_, hE, hbase, ?_, hin, hcid, hru, hst, hstate⟩
  intro k v hv
  by_cases hemp : app.authorize_params.isEmpty
  · have : app.authorize_params = [] := List.isEmpty_iff.mp hemp
    rw [this] at hv
    cases hv
  · rw [if_neg hemp, dlookup_dictUpdate, hv]

/-- A concrete OAuth2 client whose static authorize params share the key
`prompt` with the caller kwargs. -/
def appC9 : RemoteApp where
  client_id := some "cid"
  authorize_url := some "https://idp/authorize"
  authorize_params := [("prompt", "static")]

/-- **C9 counterexample.** The claim says the caller-supplied value takes
precedence on a key present in both param sets.  At a concrete call with
static `prompt=static` and caller `prompt=caller`, the URL carries
`prompt=static`: the static side wins (`kwargs.update(self.authorize_params)`
lets the static dict override, line 78). -/
theorem authorize_params_precedence_counterexample :
    ((create_authorization_url w0 appC9 (some "https://app/cb")
        [("prompt", "caller")]).1.map
      (fun rv => dlookup rv.url.query "prompt")) = .ok (some "static") ∧
    (some "static" : Option String) ≠ some "caller" := by
  refine ⟨rfl, by decide⟩

/-- Witness for C9: at the same concrete call, the URL also carries the
client id and the generated state. -/
theorem create_authorization_url_oauth2_merge_witness :
    ∃ rv, (create_authorization_url w0 appC9 (some "https://app/cb")
        [("prompt", "caller")]).1 = .ok rv ∧
      dlookup rv.url.query "client_id" = some "cid" ∧
      dlookup rv.url.query "redirect_uri" = some "https://app/cb" ∧
      dlookup rv.url.query "state" = some "generated-state" := by
  obtain ⟨rv, hE, _hbase, _hPrec, _hin, hcid, hru, hst, _hstate⟩ :=
    create_authorization_url_oauth2_merge w0 appC9 (some "https://app/cb")
      [("prompt", "caller")] "https://idp/authorize" rfl rfl
  refine ⟨rv, hE, ?_, ?_, ?_⟩
  · exact hcid "cid" rfl rfl
  · exact hru "https://app/cb" rfl rfl
  · exact hst

/-! ## Access-token retrieval from the callback (`authorize_access_token`,
lines 102-110, and `_generate_access_token_params`, lines 43-49) -/

/-- `_generate_access_token_params` (lines 43-49): for OAuth1 the raw request
scope; for OAuth2 the `code` and `state` entries of the callback query
(an absent query key yields a `None` value, hence the `Option String`
values). -/
def generate_access_token_params (app : RemoteApp)
    (request : CallbackRequest) : List (String × Option String) :=
  if app.request_token_url.isSome then request.scope
  else
    [("code", dlookup request.query_params "code"),
     ("state", dlookup request.query_params "state")]

/-- The arguments assembled for `fetch_access_token`. -/
structure ATArgs where
  redirect_uri : Option String := none
  request_token : Option (List (String × Option String)) := none
  params : List (String × Option String) := []

/-- Modelled from the spec: `retrieve_access_token_params` of the shared base
client (not under `src/`).  Per §4.3 and §8, in the OAuth2 flow the callback
parameters collected by `_generate_access_token_params` have their `state`
entry popped and matched against the state persisted at authorization
time — a mismatch is a hard `StateMismatch` failure before anything else —
and the remaining parameters (the `code`) together with the persisted
redirect uri feed the exchange; in the OAuth1 flow the persisted request
token and the callback parameters are returned (§4.2). -/
def retrieve_access_token_params (app : RemoteApp) (session : SessionData)
    (request : CallbackRequest) : Except Err ATArgs :=
  if app.request_token_url.isSome then
    .ok { redirect_uri := session.redirect_uri
          request_token := session.request_token
          params := generate_access_token_params app request }
  else
    let params := generate_access_token_params app request
    let request_state :=
      match dlookup params "state" with
      | some v => v
      | none => none
    let params1 := params.filter (fun p => p.1 != "state")
    if session.state = request_state then
      .ok { redirect_uri := session.redirect_uri
            request_token := none
            params := params1 }
    else .error .stateMismatch

/-- `authorize_access_token` (lines 102-110): gather the parameters from the
callback request (including the state check), merge the extra kwargs over
them, and run `fetch_access_token`. -/
def authorize_access_token (w : World) (app : RemoteApp)
    (session : SessionData) (request : CallbackRequest)
    (kwargs : List (String × Option String)) :
    Except Err Token × RemoteApp × List Event :=
  match retrieve_access_token_params app session request with
  | .error e => (.error e, app, [])
  | .ok args =>
      fetch_access_token w app args.redirect_uri args.request_token
        (dictUpdate args.params kwargs)

/-- **C4.** OAuth2 flow: when the callback state does not equal the state
persisted at authorization time, fetching the access token fails with
`StateMismatch` before any network call (empty event trace, unchanged
client); with matching state, the `code` value of the callback query is
used in the token-exchange parameters (stated for caller kwargs that do not
themselves override `code`). -/
theorem oauth2_state_check_and_code_use (w : World) (app : RemoteApp)
    (session : SessionData) (request : CallbackRequest)
    (kwargs : List (String × Option String))
    (h1 : app.request_token_url = none) :
    (session.state ≠ dlookup request.query_params "state" →
      authorize_access_token w app session request kwargs
        = (.error .stateMismatch, app, [])) ∧
    (session.state = dlookup request.query_params "state" →
      dlookup kwargs "code" = none →
      ∃ ep kw2,
        (authorize_access_token w app session request kwargs).2.2
          = (load_server_metadata w app).2.2 ++ [Event.oauth2Exchange ep kw2]
        ∧ dlookup kw2 "code" = some (dlookup request.query_params "code")) := by
  have hro : app.request_token_url.isSome = false := by rw [h1]; rfl
  constructor
  · intro hm
    have hretr : retrieve_access_token_params app session request
        = .error .stateMismatch := by
      simp [retrieve_access_token_params, hro, generate_access_token_params,
        dlookup, hm]
    simp [authorize_access_token, hretr]
  · intro hmatch hkw
    have hretr : retrieve_access_token_params app session request
        = .ok { redirect_uri := session.redirect_uri
                request_token := none
                params := [("code", dlookup request.query_params "code")] } := by
      simp [retrieve_access_token_params, hro, generate_access_token_params,
        dlookup, hmatch]
    have hfe : authorize_access_token w app session request kwargs
        = fetch_access_token w app session.redirect_uri none
            (dictUpdate [("code", dlookup request.query_params "code")] kwargs) := by
      simp [authorize_access_token, hretr]
    refine ⟨fetch_token_endpoint app (load_server_metadata w app).1,
      dictUpdate app.access_token_params
        (dictUpdate [("code", dlookup request.query_params "code")] kwargs),
      ?_, ?_⟩
    · rw [hfe]
      simp [fetch_access_token, h1]
    · rw [dlookup_dictUpdate]
      have hinner : dlookup
          (dictUpdate [("code", dlookup request.query_params "code")] kwargs)
          "code" = some (dlookup request.query_params "code") := by
        rw [dlookup_dictUpdate, hkw]
        simp [dlookup]
      rw [hinner]

/-- A concrete OAuth2 client with a static token endpoint. -/
def appO2 : RemoteApp where
  client_id := some "cid"
  access_token_url := some "https://idp/token"

/-- The concrete callback query of §8: `code=abc`, `state=s1`. -/
def cbOk : CallbackRequest where
  query_params := [("code", "abc"), ("state", "s1")]

/-- Witness for C4: with persisted state `s2` the call fails hard with an
empty trace; with persisted state `s1` the exchange parameters carry
`code=abc`. -/
theorem oauth2_state_check_and_code_use_witness :
    (authorize_access_token w0 appO2 { state := some "s2" } cbOk []
      = (.error .stateMismatch, appO2, [])) ∧
    (∃ ep kw2,
      (authorize_access_token w0 appO2 { state := some "s1" } cbOk []).2.2
        = (load_server_metadata w0 appO2).2.2 ++ [Event.oauth2Exchange ep kw2]
      ∧ dlookup kw2 "code" = some (dlookup cbOk.query_params "code")) := by
  constructor
  · exact (oauth2_state_check_and_code_use w0 appO2 { state := some "s2" }
      cbOk [] rfl).1 (by decide)
  · exact (oauth2_state_check_and_code_use w0 appO2 { state := some "s1" }
      cbOk [] rfl).2 (by decide) rfl

end AuthlibStarlette
